import Mathlib

set_option linter.all false

/-!
Shallow embedding of `tinker_access_client/Client.py`: the access state
machine (`Client`, a `transitions.Machine`), its guards, entry actions,
session timer tick, and the safe power-down sequence (`__disable_power` /
`__wait_for_power_down`).

Modelling conventions:
* Machine integers are `Nat`/`Int`; `float('inf')` for `remaining_extensions`
  is `Option Nat` with `none` = unbounded.
* Device reads that happen in polling loops are input traces `Nat → Bool`
  (the k-th read of the pin).  Wall-clock elapsed time inside a polling loop
  advances by the loop's sleep per iteration (500 ms for power-down,
  100 ms for the training hold), so "elapsed < limit" becomes an index bound.
* The `transitions` library semantics used by the source: a trigger whose
  (trigger, source-mode) pair is not declared is silently ignored
  (`ignore_invalid_triggers=True`); conditions run before the state change
  and their side effects persist even when they veto the transition; on an
  accepted transition the `on_enter_<state>` callbacks run and then the
  machine-level `after_state_change` callback (`update_status`).
* The fire-and-forget server `logout` notification and the logger side
  channel carry no machine state and are not modelled.
-/

/--
The machine's operational modes.
Modelled from the spec: `State.py` is not under `src/`; the spec fixes the
mode set (§3) and says the persisted names are the lowercase mode names.
-/
inductive Mode where
  | INITIALIZED
  | IDLE
  | IN_USE
  | UNLOCKED
  | IN_TRAINING
  | ESTOP
  | BYPASSED
  | TERMINATED
  deriving DecidableEq

/-- The trigger names of `class Trigger` in `Client.py`. -/
inductive Trigger where
  | IDLE
  | ESTOP
  | BYPASS
  | UNLOCK
  | LOGIN
  | LOGOUT
  | TERMINATE
  deriving DecidableEq

/-- The persisted (lowercase) name of a mode, as written to the status file. -/
def modeName : Mode → String
  | .INITIALIZED => "initialized"
  | .IDLE => "idle"
  | .IN_USE => "in_use"
  | .UNLOCKED => "unlocked"
  | .IN_TRAINING => "in_training"
  | .ESTOP => "estop"
  | .BYPASSED => "bypassed"
  | .TERMINATED => "terminated"

/-- The user context dictionary returned by the server login call.
`remaining_extensions = none` models Python `float('inf')` (unbounded). -/
structure UserInfo where
  badge_code : String
  user_id : String
  user_name : String
  session_seconds : Int
  remaining_seconds : Int
  remaining_extensions : Option Nat
  deriving DecidableEq

/-- The configuration options (`ClientOption`) that the modelled code reads. -/
structure Opts where
  pin_power_relay : Nat
  pin_current_sense : Nat
  pin_alarm : Nat
  pin_logout : Nat
  use_alarm : Bool
  is_a_door : Bool
  door_continuous_unlock : Bool
  disable_training_mode : Bool
  allow_user_override : Bool
  door_normal_hr_start : Int
  door_normal_hr_end : Int
  /-- seconds; `none` means unset (`float('inf')` in `__wait_for_power_down`). -/
  max_power_down_timeout : Option Nat
  /-- seconds; `0` means unset / falsy in `__wait_for_logout_coast_time`. -/
  logout_coast_time : Nat
  deriving DecidableEq

/-- Outcome of `TinkerAccessServerApi.login`: success payload,
`UnauthorizedAccessException`, or any other exception. -/
inductive LoginResult where
  | ok (u : UserInfo)
  | unauthorized
  | err
  deriving DecidableEq

/-- Per-event environment: the scanned badge (if any), what the server
would answer to a login call, the wall-clock time (seconds of day, as
compared by `datetime.time`), and the trace of logout-pin reads consumed
by the training-hold poll. -/
structure Env where
  badge_code : Option String
  loginResult : LoginResult
  now : Int
  logoutPinReads : Nat → Bool

/-- The observable state of the client: current mode, user context, the two
timer handles (live or not), the device outputs, and the status file. -/
structure ClientState where
  mode : Mode
  user_info : Option UserInfo
  logout_timer : Bool
  relock_timer : Bool
  relay : Bool
  led : Bool × Bool × Bool
  alarm : Bool
  lcd : String × String
  statusFile : String
  deriving DecidableEq

/-- Python `str.center(16, ' ')` (for even width the extra pad goes right). -/
def center16 (s : String) : String :=
  let l := s.length
  if 16 ≤ l then s
  else
    let marg := 16 - l
    let left := marg / 2
    String.mk (List.replicate left ' ') ++ s ++ String.mk (List.replicate (marg - left) ' ')

/-- `'{0:02d}'.format n` for the non-negative values displayed. -/
def pad2 (n : Int) : String :=
  if n < 10 then "0" ++ toString n else toString n

/-- `divmod`-based `HH:MM:SS` rendering of `__show_remaining_time`. -/
def fmt_hms (total : Int) : String :=
  let m := Int.ediv total 60
  let s := Int.emod total 60
  let h := Int.ediv m 60
  let m2 := Int.emod m 60
  pad2 h ++ ":" ++ pad2 m2 ++ ":" ++ pad2 s

/-- `__set_alarm_output`: drives the alarm pin only when `USE_ALARM` is set. -/
def set_alarm_output (opts : Opts) (b : Bool) (s : ClientState) : ClientState :=
  if opts.use_alarm then { s with alarm := b } else s

/-- `__show_red_led`. -/
def show_red_led (opts : Opts) (s : ClientState) : ClientState :=
  set_alarm_output opts true { s with led := (true, false, false) }

/-- `__show_blue_led`. -/
def show_blue_led (opts : Opts) (s : ClientState) : ClientState :=
  set_alarm_output opts false { s with led := (false, false, true) }

/-- `__show_green_led`. -/
def show_green_led (opts : Opts) (s : ClientState) : ClientState :=
  set_alarm_output opts false { s with led := (false, true, false) }

/-- `__show_yellow_led`. -/
def show_yellow_led (opts : Opts) (s : ClientState) : ClientState :=
  set_alarm_output opts false { s with led := (true, true, false) }

/-- `__show_magenta_led`. -/
def show_magenta_led (opts : Opts) (s : ClientState) : ClientState :=
  set_alarm_output opts false { s with led := (true, false, true) }

/-- `__toggle_red_led`: the device read of `PIN_LED_RED` returns the red
component currently driven. -/
def toggle_red_led (opts : Opts) (s : ClientState) : ClientState :=
  set_alarm_output opts true { s with led := (!s.led.1, false, false) }

/-- A two-line LCD write (both lines centered to 16 characters). -/
def write_lcd (l1 l2 : String) (s : ClientState) : ClientState :=
  { s with lcd := (center16 l1, center16 l2) }

/-- A one-line LCD write; the second line is left as is (the device layer
is not under `src/`; the claims do not depend on this choice). -/
def write_lcd1 (l1 : String) (s : ClientState) : ClientState :=
  { s with lcd := (center16 l1, s.lcd.2) }

/-- `__cancel_logout_timer`. -/
def cancel_logout_timer (s : ClientState) : ClientState :=
  { s with logout_timer := false }

/-- `__cancel_relock_timer`. -/
def cancel_relock_timer (s : ClientState) : ClientState :=
  { s with relock_timer := false }

/-- `__start_logout_timer` (cancel-then-arm: at most one live handle). -/
def start_logout_timer (s : ClientState) : ClientState :=
  { s with logout_timer := true }

/-- `__start_relock_timer` (cancel-then-arm: at most one live handle). -/
def start_relock_timer (s : ClientState) : ClientState :=
  { s with relock_timer := true }

/-- `__do_logout`: cancel both timers, fire the asynchronous server logout
(not part of machine state), clear the user context. -/
def do_logout (s : ClientState) : ClientState :=
  { cancel_relock_timer (cancel_logout_timer s) with user_info := none }

/-- The machine-state effect of `__disable_power`: when the relay pin reads
high the sequence always ends by driving it low and showing the disabling
screen; when it already reads low nothing is written.  The detailed
polling/coasting behaviour (device writes and sleeps) is modelled separately
by `disable_power` below, which proves that every terminating run commands
the relay low, justifying this summary. -/
def disable_power_m (s : ClientState) : ClientState :=
  if s.relay then write_lcd "DISABLING" "POWER..." { s with relay := false } else s

/-- `__ensure_idle`. -/
def ensure_idle (opts : Opts) (s : ClientState) : ClientState :=
  write_lcd "SCAN BADGE" "TO LOGIN" (show_blue_led opts (disable_power_m (do_logout s)))

/-- `__ensure_in_use`. -/
def ensure_in_use (opts : Opts) (s : ClientState) : ClientState :=
  show_green_led opts { s with relay := true }

/-- `__ensure_unlocked`. -/
def ensure_unlocked (opts : Opts) (s : ClientState) : ClientState :=
  write_lcd "TINKERACCESS" "IS UNLOCKED" (show_green_led opts { do_logout s with relay := true })

/-- `__ensure_estop`. -/
def ensure_estop (opts : Opts) (s : ClientState) : ClientState :=
  write_lcd "E-STOP ACTIVATED" "RESET THE SWITCH" (show_red_led opts (disable_power_m (do_logout s)))

/-- `__ensure_bypass`. -/
def ensure_bypass (opts : Opts) (s : ClientState) : ClientState :=
  write_lcd "TINKERACCESS" "IS BYPASSED" (show_yellow_led opts (disable_power_m (do_logout s)))

/-- `__ensure_training_mode`. -/
def ensure_training_mode (opts : Opts) (s : ClientState) : ClientState :=
  write_lcd "TRAINING MODE" "ACTIVATED..." (show_magenta_led opts (disable_power_m (do_logout s)))

/-- The `on_enter_<mode>` callbacks.  `on_enter_idle`'s trailing bypass
re-check enqueues a separate trigger (the machine is `queued=True`) and is
modelled as its own step; `on_enter_terminated` runs the idle entry actions. -/
def run_entry (opts : Opts) (m : Mode) (s : ClientState) : ClientState :=
  match m with
  | .IDLE => ensure_idle opts s
  | .IN_USE => start_logout_timer (ensure_in_use opts s)
  | .UNLOCKED => start_relock_timer (ensure_unlocked opts s)
  | .ESTOP => ensure_estop opts s
  | .BYPASSED => ensure_bypass opts s
  | .IN_TRAINING => write_lcd "SCAN" "TRAINER BADGE..." (ensure_training_mode opts s)
  | .TERMINATED => ensure_idle opts s
  | .INITIALIZED => s

/-- `update_status`: opens `STATUS_FILE` with mode `'w'` (truncating) and
writes the mode name followed by a newline. -/
def update_status (s : ClientState) : ClientState :=
  { s with statusFile := modeName s.mode ++ "\n" }

/-- One accepted transition into `m`: set the state, run the entry
callbacks, then the `after_state_change` hook. -/
def fire (opts : Opts) (m : Mode) (s : ClientState) : ClientState :=
  update_status (run_entry opts m { s with mode := m })

/-- `is_normal_hours`: clamp each HHMM config value into `[0, 2359]`, split
it as `value / 100 : value % 100` with the minute clamped to at most 59, and
test `start <= now <= end` on `datetime.time` values (equivalently on
seconds of day). -/
def is_normal_hours (opts : Opts) (now : Int) : Bool :=
  let start_time0 := opts.door_normal_hr_start
  let start_time := if start_time0 < 0 then 0 else if start_time0 > 2359 then 2359 else start_time0
  let start_hr := Int.ediv start_time 100
  let start_min0 := Int.emod start_time 100
  let start_min := if start_min0 > 59 then 59 else start_min0
  let end_time0 := opts.door_normal_hr_end
  let end_time := if end_time0 < 0 then 0 else if end_time0 > 2359 then 2359 else end_time0
  let end_hr := Int.ediv end_time 100
  let end_min0 := Int.emod end_time 100
  let end_min := if end_min0 > 59 then 59 else end_min0
  decide (start_hr * 3600 + start_min * 60 ≤ now ∧ now ≤ end_hr * 3600 + end_min * 60)

/-- Spec-side reading of §4.1 "within normal hours": the bound derived from
an HHMM value by clamping it into `[0, 2359]` and its minute component
(`value mod 100`) into `[0, 59]`. -/
def hhmm_window_secs (v : Int) : Int :=
  let c := max 0 (min v 2359)
  Int.ediv c 100 * 3600 + min (Int.emod c 100) 59 * 60

/-- Spec-side reading of the guard: the current time lies in the inclusive
window `[start, end]`. -/
def normal_hours_spec (opts : Opts) (now : Int) : Prop :=
  now ∈ Set.Icc (hhmm_window_secs opts.door_normal_hr_start)
    (hhmm_window_secs opts.door_normal_hr_end)

/-- The 100 ms polling loop of `is_waiting_for_training`: at read index `i`
with `fuel` poll slots left, the loop consumes one read per iteration while
the pin is asserted; when it stops (pin released, or the 2-second window is
exhausted) the guard returns one final fresh read. -/
def training_poll (pin : Nat → Bool) : Nat → Nat → Bool
  | i, 0 => pin i
  | i, fuel + 1 => if pin i then training_poll pin (i + 1) fuel else pin (i + 1)

/-- `is_waiting_for_training`: false when training is disabled by
configuration or this is a continuous-unlock door; otherwise poll the logout
pin every 100 ms for up to 2 s (20 slots) and return the final read. -/
def is_waiting_for_training (opts : Opts) (terminated : Bool) (pin : Nat → Bool) : Bool :=
  if (opts.is_a_door && opts.door_continuous_unlock) || opts.disable_training_mode then false
  else if terminated then pin 0
  else training_poll pin 0 20

/-- `__is_current_badge_code`: the current badge must be truthy (non-empty)
and equal to the scanned one. -/
def is_current_badge_code (user : Option UserInfo) (badge : Option String) : Bool :=
  match user with
  | none => false
  | some u => decide (u.badge_code ≠ "" ∧ badge = some u.badge_code)

/-- `__show_remaining_time` (only called with a user context present). -/
def show_remaining_time (opts : Opts) (s : ClientState) : ClientState :=
  match s.user_info with
  | none => s
  | some u =>
      let s1 := if u.remaining_seconds < 300 then toggle_red_led opts s else s
      { s1 with lcd := (center16 u.user_name, center16 (fmt_hms u.remaining_seconds)) }

/-- Python truthiness of `remaining_extensions` (`float('inf')` is truthy). -/
def ext_truthy : Option Nat → Bool
  | none => true
  | some n => decide (n ≠ 0)

/-- The `remaining_extensions - 1` update (skipped for `float('inf')`). -/
def dec_ext : Option Nat → Option Nat
  | none => none
  | some n => some (n - 1)

/-- The user-context update performed by the truthy-extensions branch of
`__extend_session`. -/
def extended_user (u : UserInfo) : UserInfo :=
  { u with remaining_extensions := dec_ext u.remaining_extensions,
           remaining_seconds := u.remaining_seconds + u.session_seconds }

/-- `__extend_session` (only called with a user context present, via
`__is_current_badge_code`). -/
def extend_session (opts : Opts) (s : ClientState) : ClientState :=
  match s.user_info with
  | none => s
  | some u =>
      let s0 := cancel_logout_timer s
      if ext_truthy u.remaining_extensions then
        let u2 := extended_user u
        start_logout_timer (show_remaining_time opts
          (write_lcd1 "SESSION EXTENDED" { s0 with user_info := some u2 }))
      else
        start_logout_timer (show_remaining_time opts
          (write_lcd "NO EXTENSIONS" "REMAINING..." s0))

/-- `__do_login`: attempt the server login; on success store the returned
context; on `UnauthorizedAccessException` or any other error show the
corresponding screens and re-run the idle (normal) or in-use (override)
entry actions; return whether a user context is present afterwards. -/
def do_login (opts : Opts) (env : Env) (override : Bool) (s : ClientState) : ClientState × Bool :=
  let s0 := write_lcd "ATTEMPTING" "LOGIN..." s
  match env.loginResult with
  | .ok u =>
      let s1 := write_lcd1 "ACCESS GRANTED" { s0 with user_info := some u }
      (s1, s1.user_info.isSome)
  | .unauthorized =>
      let s1 := write_lcd "ACCESS DENIED" "TAKE THE CLASS" (show_red_led opts s0)
      let s2 := if override then ensure_in_use opts s1 else ensure_idle opts s1
      (s2, s2.user_info.isSome)
  | .err =>
      let s1 := write_lcd "PLEASE" "TRY AGAIN..."
        (write_lcd "THERE WAS AN" "UNEXPECTED ERROR" (show_red_led opts s0))
      let s2 := if override then ensure_in_use opts s1 else ensure_idle opts s1
      (s2, s2.user_info.isSome)

/-- `is_authorized`: the guard of the IDLE → IN_USE login transition. -/
def is_authorized (opts : Opts) (env : Env) (s : ClientState) : ClientState × Bool :=
  do_login opts env false s

/-- `should_extend_current_session`: same badge ⇒ extend; different badge
with `ALLOW_USER_OVERRIDE` ⇒ cancel the timer and attempt an override login
(result discarded, guard returns true); otherwise false. -/
def should_extend_current_session (opts : Opts) (env : Env) (s : ClientState) :
    ClientState × Bool :=
  if is_current_badge_code s.user_info env.badge_code then
    (extend_session opts s, true)
  else if opts.allow_user_override then
    ((do_login opts env true (cancel_logout_timer s)).1, true)
  else (s, false)

/-- One serialized trigger dispatch of the `transitions` machine, with the
transition table of `Client.__init__` (invalid (trigger, source) pairs are
silently ignored). -/
def step (opts : Opts) (env : Env) (t : Trigger) (s : ClientState) : ClientState :=
  match t with
  | .IDLE =>
      if s.mode = .INITIALIZED ∨ s.mode = .ESTOP ∨ s.mode = .BYPASSED then
        fire opts .IDLE s
      else s
  | .ESTOP =>
      if s.mode = .INITIALIZED ∨ s.mode = .BYPASSED ∨ s.mode = .IDLE ∨ s.mode = .IN_USE ∨
          s.mode = .IN_TRAINING then
        fire opts .ESTOP s
      else s
  | .BYPASS =>
      if s.mode = .INITIALIZED ∨ s.mode = .ESTOP ∨ s.mode = .IDLE ∨ s.mode = .IN_TRAINING then
        fire opts .BYPASSED s
      else s
  | .UNLOCK =>
      if s.mode = .IDLE ∨ s.mode = .IN_USE then
        if is_normal_hours opts env.now then fire opts .UNLOCKED s else s
      else s
  | .LOGIN =>
      if s.mode = .IDLE then
        let r := is_authorized opts env s
        if r.2 then fire opts .IN_USE r.1 else r.1
      else if s.mode = .IN_USE then
        let r := should_extend_current_session opts env s
        if r.2 then fire opts .IN_USE r.1 else r.1
      else s
  | .LOGOUT =>
      if s.mode = .UNLOCKED ∨ s.mode = .IN_USE ∨ s.mode = .IN_TRAINING then
        fire opts .IDLE s
      else if s.mode = .IDLE ∨ s.mode = .ESTOP ∨ s.mode = .BYPASSED then
        if is_waiting_for_training opts (decide (s.mode = .TERMINATED)) env.logoutPinReads then
          fire opts .IN_TRAINING s
        else s
      else s
  | .TERMINATE => fire opts .TERMINATED s

/-- `__logout_timer_tick`: if not terminated, a user is present and the
timer handle is live, fire `logout` once the remaining time is exhausted,
else decrement, refresh the display and re-arm. -/
def logout_timer_tick (opts : Opts) (env : Env) (s : ClientState) : ClientState :=
  if ¬s.mode = .TERMINATED ∧ s.user_info.isSome ∧ s.logout_timer then
    match s.user_info with
    | none => s
    | some u =>
        if u.remaining_seconds ≤ 0 then step opts env .LOGOUT s
        else
          start_logout_timer (show_remaining_time opts
            { s with user_info := some { u with remaining_seconds := u.remaining_seconds - 1 } })
  else s

/-- `__relock_timer_tick`: in UNLOCKED, outside normal hours fire `logout`,
otherwise re-arm for another 60 s. -/
def relock_timer_tick (opts : Opts) (env : Env) (s : ClientState) : ClientState :=
  if ¬s.mode = .TERMINATED ∧ s.relock_timer then
    if ¬is_normal_hours opts env.now then step opts env .LOGOUT s
    else start_relock_timer s
  else s

/-! ### The detailed safe power-down sequence (`__disable_power`) -/

/-- A device interaction performed by the power-down sequence. -/
inductive Effect where
  | pinWrite (pin : Nat) (level : Bool)
  | ledWrite (r g b : Bool)
  | lcdWrite (line1 line2 : String)
  | sleepMs (ms : Nat)
  deriving DecidableEq

/-- `time.time() - current < max_power_down_timeout` at poll index `k`
(elapsed time is 500 ms per iteration, so the limit is in half-seconds;
`none` = unset = unbounded). -/
def withinLimit : Option Nat → Nat → Bool
  | none, _ => true
  | some t, k => decide (k < t)

/-- `MAX_POWER_DOWN_TIMEOUT` converted to half-second poll slots. -/
def limitHalf (opts : Opts) : Option Nat :=
  opts.max_power_down_timeout.map (fun t => 2 * t)

/-- The `while` loop of `__wait_for_power_down`, fueled: returns the number
of iterations executed (the first poll index at which the machine no longer
draws current or the timeout has elapsed), or `none` if the fuel runs out. -/
def wait_polls (cs : Nat → Bool) (lim : Option Nat) : Nat → Nat → Option Nat
  | _, 0 => none
  | k, fuel + 1 =>
      if withinLimit lim k && cs k then wait_polls cs lim (k + 1) fuel else some k

/-- The device writes and sleeps of one `__wait_for_power_down` iteration:
red LED (and alarm when enabled), the waiting screen, and the 500 ms sleep. -/
def pollIterEffects (opts : Opts) : List Effect :=
  [Effect.ledWrite true false false] ++
    (if opts.use_alarm then [Effect.pinWrite opts.pin_alarm true] else []) ++
    [Effect.lcdWrite (center16 "WAITING FOR ...") (center16 "MACHINE TO STOP"),
      Effect.sleepMs 500]

/-- The effects of `n` polling iterations. -/
def pollEffects (opts : Opts) (n : Nat) : List Effect :=
  List.join (List.replicate n (pollIterEffects opts))

/-- `__wait_for_logout_coast_time`: only sleeps when `LOGOUT_COAST_TIME` is
truthy. -/
def coastEffects (opts : Opts) : List Effect :=
  if opts.logout_coast_time ≠ 0 then
    [Effect.lcdWrite (center16 "COASTING") (center16 "DOWN..."),
      Effect.sleepMs (1000 * opts.logout_coast_time)]
  else []

/-- The final re-check of `__disable_power`: the relay pin is unchanged by
the polling, so it still reads high and is driven low with the disabling
screen. -/
def finalEffects (opts : Opts) : List Effect :=
  [Effect.pinWrite opts.pin_power_relay false,
    Effect.lcdWrite (center16 "DISABLING") (center16 "POWER...")]

/-- `__disable_power`: given the current relay level and the trace of
current-sense reads, return the commanded relay level and the list of device
interactions performed, or `none` when the polling loop outruns the fuel
(only possible with `MAX_POWER_DOWN_TIMEOUT` unset and current never
clearing, in which case the source loops forever). -/
def disable_power (opts : Opts) (relay : Bool) (cs : Nat → Bool) (fuel : Nat) :
    Option (Bool × List Effect) :=
  if relay = false then some (false, [])
  else
    match wait_polls cs (limitHalf opts) 0 fuel with
    | none => none
    | some n =>
        some (false,
          pollEffects opts n ++ (if n ≠ 0 then coastEffects opts else []) ++ finalEffects opts)

/-! ### Invariants and concrete sample data -/

/-- Invariant §3.1: the relay is energized exactly in IN_USE and UNLOCKED. -/
def RelayInv (s : ClientState) : Prop :=
  s.relay = true ↔ (s.mode = Mode.IN_USE ∨ s.mode = Mode.UNLOCKED)

/-- Invariant §3.6 / §8.4: the status file holds the mode name + newline. -/
def StatusInv (s : ClientState) : Prop :=
  s.statusFile = modeName s.mode ++ "\n"

def opts0 : Opts :=
  { pin_power_relay := 1, pin_current_sense := 2, pin_alarm := 3, pin_logout := 4,
    use_alarm := true, is_a_door := false, door_continuous_unlock := false,
    disable_training_mode := false, allow_user_override := true,
    door_normal_hr_start := 800, door_normal_hr_end := 1700,
    max_power_down_timeout := some 5, logout_coast_time := 2 }

def env0 : Env :=
  { badge_code := none, loginResult := .unauthorized, now := 0,
    logoutPinReads := fun _ => false }

def alice : UserInfo :=
  { badge_code := "A1", user_id := "7", user_name := "ALICE",
    session_seconds := 3600, remaining_seconds := 2600, remaining_extensions := some 2 }

def bob : UserInfo :=
  { badge_code := "B1", user_id := "9", user_name := "BOB",
    session_seconds := 1800, remaining_seconds := 900, remaining_extensions := some 0 }

def aliceAfterExt : UserInfo :=
  { badge_code := "A1", user_id := "7", user_name := "ALICE",
    session_seconds := 3600, remaining_seconds := 6200, remaining_extensions := some 1 }

/-- An IN_USE state whose session has `r` remaining seconds. -/
def initInUse (r : Int) : ClientState :=
  { mode := .IN_USE,
    user_info := some { alice with remaining_seconds := r },
    logout_timer := true, relock_timer := false, relay := true,
    led := (false, true, false), alarm := false,
    lcd := (center16 "ALICE", center16 (fmt_hms r)), statusFile := "in_use\n" }

def sAlice : ClientState := initInUse 2600

def sBob : ClientState :=
  { mode := .IN_USE, user_info := some bob, logout_timer := true, relock_timer := false,
    relay := true, led := (false, true, false), alarm := false,
    lcd := (center16 "BOB", center16 (fmt_hms 900)), statusFile := "in_use\n" }

def sIdle : ClientState :=
  { mode := .IDLE, user_info := none, logout_timer := false, relock_timer := false,
    relay := false, led := (false, false, true), alarm := false,
    lcd := (center16 "SCAN BADGE", center16 "TO LOGIN"), statusFile := "idle\n" }

def sUnlocked : ClientState :=
  { mode := .UNLOCKED, user_info := none, logout_timer := false, relock_timer := true,
    relay := true, led := (false, true, false), alarm := false,
    lcd := (center16 "TINKERACCESS", center16 "IS UNLOCKED"), statusFile := "unlocked\n" }

/-- Environment of a same-badge scan for Alice. -/
def envA : Env :=
  { badge_code := some "A1", loginResult := .unauthorized, now := 0,
    logoutPinReads := fun _ => false }

/-- Environment of an unauthorized override scan (badge `X9`). -/
def envB : Env :=
  { badge_code := some "X9", loginResult := .unauthorized, now := 0,
    logoutPinReads := fun _ => false }

/-! ### Helper lemmas about entry actions and guards -/

theorem clamp_eq_maxmin (v : Int) :
    (if v < 0 then 0 else if v > 2359 then 2359 else v) = max 0 (min v 2359) := by
  split_ifs <;> omega

theorem minclamp_eq (v : Int) : (if v > 59 then 59 else v) = min v 59 := by
  split_ifs <;> omega

theorem ensure_idle_fields (opts : Opts) (s : ClientState) :
    (ensure_idle opts s).mode = s.mode ∧ (ensure_idle opts s).relay = false ∧
    (ensure_idle opts s).user_info = none ∧ (ensure_idle opts s).statusFile = s.statusFile ∧
    (ensure_idle opts s).logout_timer = false := by
  unfold ensure_idle write_lcd show_blue_led set_alarm_output disable_power_m do_logout
    cancel_relock_timer cancel_logout_timer
  split_ifs <;> simp_all [write_lcd]

theorem ensure_in_use_fields (opts : Opts) (s : ClientState) :
    (ensure_in_use opts s).mode = s.mode ∧ (ensure_in_use opts s).relay = true ∧
    (ensure_in_use opts s).user_info = s.user_info ∧
    (ensure_in_use opts s).statusFile = s.statusFile ∧
    (ensure_in_use opts s).logout_timer = s.logout_timer := by
  unfold ensure_in_use show_green_led set_alarm_output
  split_ifs <;> simp_all

theorem ensure_unlocked_fields (opts : Opts) (s : ClientState) :
    (ensure_unlocked opts s).mode = s.mode ∧ (ensure_unlocked opts s).relay = true ∧
    (ensure_unlocked opts s).user_info = none ∧
    (ensure_unlocked opts s).statusFile = s.statusFile := by
  unfold ensure_unlocked write_lcd show_green_led set_alarm_output do_logout
    cancel_relock_timer cancel_logout_timer
  split_ifs <;> simp_all

theorem ensure_estop_fields (opts : Opts) (s : ClientState) :
    (ensure_estop opts s).mode = s.mode ∧ (ensure_estop opts s).relay = false ∧
    (ensure_estop opts s).user_info = none ∧
    (ensure_estop opts s).statusFile = s.statusFile := by
  unfold ensure_estop write_lcd show_red_led set_alarm_output disable_power_m do_logout
    cancel_relock_timer cancel_logout_timer
  split_ifs <;> simp_all [write_lcd]

theorem ensure_bypass_fields (opts : Opts) (s : ClientState) :
    (ensure_bypass opts s).mode = s.mode ∧ (ensure_bypass opts s).relay = false ∧
    (ensure_bypass opts s).user_info = none ∧
    (ensure_bypass opts s).statusFile = s.statusFile := by
  unfold ensure_bypass write_lcd show_yellow_led set_alarm_output disable_power_m do_logout
    cancel_relock_timer cancel_logout_timer
  split_ifs <;> simp_all [write_lcd]

theorem ensure_training_fields (opts : Opts) (s : ClientState) :
    (ensure_training_mode opts s).mode = s.mode ∧ (ensure_training_mode opts s).relay = false ∧
    (ensure_training_mode opts s).user_info = none ∧
    (ensure_training_mode opts s).statusFile = s.statusFile := by
  unfold ensure_training_mode write_lcd show_magenta_led set_alarm_output disable_power_m
    do_logout cancel_relock_timer cancel_logout_timer
  split_ifs <;> simp_all [write_lcd]

theorem run_entry_mode (opts : Opts) (m : Mode) (s : ClientState) :
    (run_entry opts m s).mode = s.mode := by
  cases m <;>
    simp [run_entry, start_logout_timer, start_relock_timer, write_lcd,
      (ensure_idle_fields opts s).1, (ensure_in_use_fields opts s).1,
      (ensure_unlocked_fields opts s).1, (ensure_estop_fields opts s).1,
      (ensure_bypass_fields opts s).1, (ensure_training_fields opts s).1]

theorem run_entry_statusFile (opts : Opts) (m : Mode) (s : ClientState) :
    (run_entry opts m s).statusFile = s.statusFile := by
  cases m <;>
    simp [run_entry, start_logout_timer, start_relock_timer, write_lcd,
      (ensure_idle_fields opts s).2.2.2.1, (ensure_in_use_fields opts s).2.2.2.1,
      (ensure_unlocked_fields opts s).2.2.2, (ensure_estop_fields opts s).2.2.2,
      (ensure_bypass_fields opts s).2.2.2, (ensure_training_fields opts s).2.2.2]

theorem run_entry_relay (opts : Opts) (m : Mode) (s : ClientState)
    (hm : m ≠ Mode.INITIALIZED) :
    ((run_entry opts m s).relay = true ↔ (m = Mode.IN_USE ∨ m = Mode.UNLOCKED)) := by
  cases m <;>
    simp_all [run_entry, start_logout_timer, start_relock_timer, write_lcd,
      (ensure_idle_fields opts s).2.1, (ensure_in_use_fields opts s).2.1,
      (ensure_unlocked_fields opts s).2.1, (ensure_estop_fields opts s).2.1,
      (ensure_bypass_fields opts s).2.1, (ensure_training_fields opts s).2.1]

theorem fire_mode (opts : Opts) (m : Mode) (s : ClientState) :
    (fire opts m s).mode = m := by
  simp [fire, update_status, run_entry_mode]

theorem fire_relay (opts : Opts) (m : Mode) (s : ClientState) (hm : m ≠ Mode.INITIALIZED) :
    ((fire opts m s).relay = true ↔ (m = Mode.IN_USE ∨ m = Mode.UNLOCKED)) := by
  simpa [fire, update_status] using run_entry_relay opts m { s with mode := m } hm

theorem fire_status (opts : Opts) (m : Mode) (s : ClientState) :
    StatusInv (fire opts m s) := by
  simp [StatusInv, fire, update_status, run_entry_mode]

/-! ### C6, C7, C9 -/

/-- C6: the within-normal-hours guard returns true iff the current local
wall-clock time lies in the inclusive window `[start, end]` derived from
`DOOR_NORMAL_HR_START` / `DOOR_NORMAL_HR_END`, each HHMM value clamped to
`[0, 2359]` and its minute component (value mod 100) clamped to `[0, 59]`. -/
theorem c6_normal_hours_guard (opts : Opts) (now : Int) :
    is_normal_hours opts now = true ↔ normal_hours_spec opts now := by
  simp only [is_normal_hours, normal_hours_spec, hhmm_window_secs, Set.mem_Icc,
    decide_eq_true_eq, clamp_eq_maxmin, minclamp_eq]

theorem training_poll_spec (pin : Nat → Bool) :
    ∀ (fuel i n : Nat), n ≤ fuel →
      (∀ k, k < n → pin (i + k) = true) →
      (n < fuel → pin (i + n) = false) →
      training_poll pin i fuel = pin (i + min (n + 1) fuel) := by
  intro fuel
  induction fuel with
  | zero =>
      intro i n hn _ _
      obtain rfl : n = 0 := by omega
      simp [training_poll]
  | succ f ih =>
      intro i n hn htrue hfalse
      cases n with
      | zero =>
          have hp : pin i = false := by simpa using hfalse (Nat.succ_pos f)
          simp only [training_poll, hp, Bool.false_eq_true, if_false]
          congr 1
          omega
      | succ m =>
          have hp : pin i = true := by simpa using htrue 0 (Nat.succ_pos m)
          simp only [training_poll, hp, if_true]
          have hrec := ih (i + 1) m (by omega)
            (fun k hk => by
              have e : i + 1 + k = i + (k + 1) := by omega
              rw [e]; exact htrue (k + 1) (by omega))
            (fun hf => by
              have e : i + 1 + m = i + (m + 1) := by omega
              rw [e]; exact hfalse (by omega))
          rw [hrec]
          congr 1
          omega

/-- C7: the waiting-for-training guard returns false whenever training mode
is disabled by configuration or the controller is a continuous-unlock door;
otherwise it polls the logout-button pin every 100 ms for up to 2 seconds
(at most 20 poll slots) and returns the pin read at the end of the polling
window: if the first `n ≤ 20` reads are the asserted prefix of the hold,
the guard's value is the read taken when polling stops. -/
theorem c7_waiting_for_training (opts : Opts) (terminated : Bool) (pin : Nat → Bool) :
    (((opts.is_a_door && opts.door_continuous_unlock) || opts.disable_training_mode) = true →
      is_waiting_for_training opts terminated pin = false) ∧
    (((opts.is_a_door && opts.door_continuous_unlock) || opts.disable_training_mode) = false →
      terminated = false →
      ∀ n, n ≤ 20 → (∀ k, k < n → pin k = true) → (n < 20 → pin n = false) →
        is_waiting_for_training opts terminated pin = pin (min (n + 1) 20)) := by
  constructor
  · intro h; simp [is_waiting_for_training, h]
  · intro h ht n hn htrue hfalse
    have hrec := training_poll_spec pin 20 0 n hn
      (fun k hk => by simpa using htrue k hk)
      (fun hf => by simpa using hfalse hf)
    simp only [is_waiting_for_training, h, ht, Bool.false_eq_true, if_false]
    simpa using hrec

theorem c7_waiting_witness :
    is_waiting_for_training opts0 false (fun _ => true) = true := by
  have h := (c7_waiting_for_training opts0 false (fun _ => true)).2 (by decide) rfl 20
    (by decide) (fun k hk => rfl) (fun hf => absurd hf (by decide))
  simpa using h

/-- C9: in UNLOCKED an E-stop activation edge never causes a transition:
UNLOCKED is absent from the estop trigger's source modes and invalid
triggers are silently ignored, so the state is fully unchanged; moreover
the only triggers that can leave UNLOCKED at all are `logout` (fired by the
button or the relock timer) and `terminate`. -/
theorem c9_unlocked_ignores_estop (opts : Opts) (env : Env) (s : ClientState)
    (h : s.mode = Mode.UNLOCKED) :
    step opts env Trigger.ESTOP s = s ∧
    ∀ t, (step opts env t s).mode ≠ Mode.UNLOCKED →
      t = Trigger.LOGOUT ∨ t = Trigger.TERMINATE := by
  constructor
  · simp [step, h]
  · intro t ht
    cases t <;> simp_all [step]

theorem c9_unlocked_witness :
    step opts0 env0 Trigger.ESTOP sUnlocked = sUnlocked :=
  (c9_unlocked_ignores_estop opts0 env0 sUnlocked rfl).1

/-! ### Projection lemmas -/

@[simp] theorem set_alarm_output_mode (opts : Opts) (b : Bool) (s : ClientState) :
    (set_alarm_output opts b s).mode = s.mode := by
  unfold set_alarm_output; split_ifs <;> rfl

@[simp] theorem set_alarm_output_user (opts : Opts) (b : Bool) (s : ClientState) :
    (set_alarm_output opts b s).user_info = s.user_info := by
  unfold set_alarm_output; split_ifs <;> rfl

@[simp] theorem set_alarm_output_relay (opts : Opts) (b : Bool) (s : ClientState) :
    (set_alarm_output opts b s).relay = s.relay := by
  unfold set_alarm_output; split_ifs <;> rfl

@[simp] theorem set_alarm_output_lt (opts : Opts) (b : Bool) (s : ClientState) :
    (set_alarm_output opts b s).logout_timer = s.logout_timer := by
  unfold set_alarm_output; split_ifs <;> rfl

@[simp] theorem set_alarm_output_rt (opts : Opts) (b : Bool) (s : ClientState) :
    (set_alarm_output opts b s).relock_timer = s.relock_timer := by
  unfold set_alarm_output; split_ifs <;> rfl

@[simp] theorem set_alarm_output_status (opts : Opts) (b : Bool) (s : ClientState) :
    (set_alarm_output opts b s).statusFile = s.statusFile := by
  unfold set_alarm_output; split_ifs <;> rfl

@[simp] theorem ensure_idle_mode (opts : Opts) (s : ClientState) :
    (ensure_idle opts s).mode = s.mode := (ensure_idle_fields opts s).1

@[simp] theorem ensure_idle_relay (opts : Opts) (s : ClientState) :
    (ensure_idle opts s).relay = false := (ensure_idle_fields opts s).2.1

@[simp] theorem ensure_idle_user (opts : Opts) (s : ClientState) :
    (ensure_idle opts s).user_info = none := (ensure_idle_fields opts s).2.2.1

@[simp] theorem ensure_idle_status (opts : Opts) (s : ClientState) :
    (ensure_idle opts s).statusFile = s.statusFile := (ensure_idle_fields opts s).2.2.2.1

@[simp] theorem ensure_idle_lt (opts : Opts) (s : ClientState) :
    (ensure_idle opts s).logout_timer = false := (ensure_idle_fields opts s).2.2.2.2

@[simp] theorem ensure_in_use_mode (opts : Opts) (s : ClientState) :
    (ensure_in_use opts s).mode = s.mode := (ensure_in_use_fields opts s).1

@[simp] theorem ensure_in_use_relay (opts : Opts) (s : ClientState) :
    (ensure_in_use opts s).relay = true := (ensure_in_use_fields opts s).2.1

@[simp] theorem ensure_in_use_user (opts : Opts) (s : ClientState) :
    (ensure_in_use opts s).user_info = s.user_info := (ensure_in_use_fields opts s).2.2.1

@[simp] theorem ensure_in_use_status (opts : Opts) (s : ClientState) :
    (ensure_in_use opts s).statusFile = s.statusFile := (ensure_in_use_fields opts s).2.2.2.1

@[simp] theorem ensure_in_use_lt (opts : Opts) (s : ClientState) :
    (ensure_in_use opts s).logout_timer = s.logout_timer := (ensure_in_use_fields opts s).2.2.2.2

@[simp] theorem ensure_unlocked_mode (opts : Opts) (s : ClientState) :
    (ensure_unlocked opts s).mode = s.mode := (ensure_unlocked_fields opts s).1

@[simp] theorem ensure_unlocked_relay (opts : Opts) (s : ClientState) :
    (ensure_unlocked opts s).relay = true := (ensure_unlocked_fields opts s).2.1

@[simp] theorem ensure_unlocked_user (opts : Opts) (s : ClientState) :
    (ensure_unlocked opts s).user_info = none := (ensure_unlocked_fields opts s).2.2.1

@[simp] theorem ensure_unlocked_status (opts : Opts) (s : ClientState) :
    (ensure_unlocked opts s).statusFile = s.statusFile := (ensure_unlocked_fields opts s).2.2.2

@[simp] theorem ensure_estop_mode (opts : Opts) (s : ClientState) :
    (ensure_estop opts s).mode = s.mode := (ensure_estop_fields opts s).1

@[simp] theorem ensure_estop_relay (opts : Opts) (s : ClientState) :
    (ensure_estop opts s).relay = false := (ensure_estop_fields opts s).2.1

@[simp] theorem ensure_estop_user (opts : Opts) (s : ClientState) :
    (ensure_estop opts s).user_info = none := (ensure_estop_fields opts s).2.2.1

@[simp] theorem ensure_estop_status (opts : Opts) (s : ClientState) :
    (ensure_estop opts s).statusFile = s.statusFile := (ensure_estop_fields opts s).2.2.2

@[simp] theorem ensure_bypass_mode (opts : Opts) (s : ClientState) :
    (ensure_bypass opts s).mode = s.mode := (ensure_bypass_fields opts s).1

@[simp] theorem ensure_bypass_relay (opts : Opts) (s : ClientState) :
    (ensure_bypass opts s).relay = false := (ensure_bypass_fields opts s).2.1

@[simp] theorem ensure_bypass_user (opts : Opts) (s : ClientState) :
    (ensure_bypass opts s).user_info = none := (ensure_bypass_fields opts s).2.2.1

@[simp] theorem ensure_bypass_status (opts : Opts) (s : ClientState) :
    (ensure_bypass opts s).statusFile = s.statusFile := (ensure_bypass_fields opts s).2.2.2

@[simp] theorem ensure_training_mode_mode (opts : Opts) (s : ClientState) :
    (ensure_training_mode opts s).mode = s.mode := (ensure_training_fields opts s).1

@[simp] theorem ensure_training_mode_relay (opts : Opts) (s : ClientState) :
    (ensure_training_mode opts s).relay = false := (ensure_training_fields opts s).2.1

@[simp] theorem ensure_training_mode_user (opts : Opts) (s : ClientState) :
    (ensure_training_mode opts s).user_info = none := (ensure_training_fields opts s).2.2.1

@[simp] theorem ensure_training_mode_status (opts : Opts) (s : ClientState) :
    (ensure_training_mode opts s).statusFile = s.statusFile := (ensure_training_fields opts s).2.2.2

@[simp] theorem show_remaining_time_mode (opts : Opts) (s : ClientState) :
    (show_remaining_time opts s).mode = s.mode := by
  unfold show_remaining_time
  cases h : s.user_info
  · simp [h]
  · simp only [h]
    split_ifs <;> simp [toggle_red_led]

@[simp] theorem show_remaining_time_user (opts : Opts) (s : ClientState) :
    (show_remaining_time opts s).user_info = s.user_info := by
  unfold show_remaining_time
  cases h : s.user_info
  · simp [h]
  · simp only [h]
    split_ifs <;> simp [toggle_red_led, h]

@[simp] theorem show_remaining_time_relay (opts : Opts) (s : ClientState) :
    (show_remaining_time opts s).relay = s.relay := by
  unfold show_remaining_time
  cases h : s.user_info
  · simp [h]
  · simp only [h]
    split_ifs <;> simp [toggle_red_led]

@[simp] theorem show_remaining_time_lt (opts : Opts) (s : ClientState) :
    (show_remaining_time opts s).logout_timer = s.logout_timer := by
  unfold show_remaining_time
  cases h : s.user_info
  · simp [h]
  · simp only [h]
    split_ifs <;> simp [toggle_red_led]

@[simp] theorem show_remaining_time_status (opts : Opts) (s : ClientState) :
    (show_remaining_time opts s).statusFile = s.statusFile := by
  unfold show_remaining_time
  cases h : s.user_info
  · simp [h]
  · simp only [h]
    split_ifs <;> simp [toggle_red_led]

/-! ### Field lemmas for the guards with side effects -/

theorem do_login_mode_status (opts : Opts) (env : Env) (o : Bool) (s : ClientState) :
    (do_login opts env o s).1.mode = s.mode ∧
    (do_login opts env o s).1.statusFile = s.statusFile := by
  cases h : env.loginResult <;> cases o <;>
    simp [do_login, h, write_lcd, write_lcd1, show_red_led]

theorem do_login_fail (opts : Opts) (env : Env) (s : ClientState)
    (h2 : (do_login opts env false s).2 = false) :
    (do_login opts env false s).1.user_info = none ∧
    (do_login opts env false s).1.relay = false ∧
    (do_login opts env false s).1.logout_timer = false := by
  cases h : env.loginResult <;>
    simp_all [do_login, h, write_lcd, write_lcd1, show_red_led]

theorem should_extend_false (opts : Opts) (env : Env) (s : ClientState)
    (h2 : (should_extend_current_session opts env s).2 = false) :
    (should_extend_current_session opts env s).1 = s := by
  unfold should_extend_current_session at h2 ⊢
  split_ifs at h2 ⊢ <;> simp_all

theorem extend_session_fields (opts : Opts) (s : ClientState) :
    (extend_session opts s).mode = s.mode ∧
    (extend_session opts s).statusFile = s.statusFile ∧
    (extend_session opts s).relay = s.relay := by
  unfold extend_session
  cases h : s.user_info
  · simp [h]
  · simp only [h]
    split_ifs <;>
      simp [start_logout_timer, cancel_logout_timer, write_lcd, write_lcd1]

theorem extend_session_result (opts : Opts) (s : ClientState) (u : UserInfo)
    (h : s.user_info = some u) :
    (extend_session opts s).logout_timer = true ∧
    (extend_session opts s).user_info =
      (if ext_truthy u.remaining_extensions then some (extended_user u) else some u) := by
  unfold extend_session
  simp only [h]
  split_ifs with he <;>
    simp [start_logout_timer, cancel_logout_timer, write_lcd, write_lcd1, h, he]

theorem should_extend_mode_status (opts : Opts) (env : Env) (s : ClientState) :
    (should_extend_current_session opts env s).1.mode = s.mode ∧
    (should_extend_current_session opts env s).1.statusFile = s.statusFile := by
  unfold should_extend_current_session
  split_ifs with h1 h2
  · exact ⟨(extend_session_fields opts s).1, (extend_session_fields opts s).2.1⟩
  · have hd := do_login_mode_status opts env true (cancel_logout_timer s)
    simpa [cancel_logout_timer] using hd
  · exact ⟨rfl, rfl⟩

theorem fire_in_use_fields (opts : Opts) (s : ClientState) :
    (fire opts .IN_USE s).user_info = s.user_info ∧
    (fire opts .IN_USE s).logout_timer = true ∧
    (fire opts .IN_USE s).mode = Mode.IN_USE ∧
    (fire opts .IN_USE s).relay = true := by
  simp [fire, update_status, run_entry, start_logout_timer]

/-! ### C1: relay ⇔ mode invariant -/

/-- C1: after every completed transition's entry actions the power relay is
commanded high iff the mode is IN_USE or UNLOCKED — every entry into IDLE,
ESTOP, BYPASSED, IN_TRAINING and TERMINATED commands the relay low
(`__disable_power`), every entry into IN_USE and UNLOCKED commands it high
(`__enable_power`); consequently one serialized trigger dispatch preserves
Invariant §3.1. -/
theorem c1_relay_invariant (opts : Opts) (env : Env) (t : Trigger) (s : ClientState) :
    (∀ (m : Mode) (s2 : ClientState), m ≠ Mode.INITIALIZED →
      ((run_entry opts m s2).relay = true ↔ (m = Mode.IN_USE ∨ m = Mode.UNLOCKED))) ∧
    (RelayInv s → RelayInv (step opts env t s)) := by
  refine ⟨fun m s2 hm => run_entry_relay opts m s2 hm, fun hinv => ?_⟩
  unfold RelayInv at hinv ⊢
  cases t with
  | IDLE =>
      by_cases hc : s.mode = Mode.INITIALIZED ∨ s.mode = Mode.ESTOP ∨ s.mode = Mode.BYPASSED
      · simp [step, hc, fire_mode, fire_relay opts Mode.IDLE s (by decide)]
      · simpa [step, hc] using hinv
  | ESTOP =>
      by_cases hc : s.mode = Mode.INITIALIZED ∨ s.mode = Mode.BYPASSED ∨ s.mode = Mode.IDLE ∨
          s.mode = Mode.IN_USE ∨ s.mode = Mode.IN_TRAINING
      · simp [step, hc, fire_mode, fire_relay opts Mode.ESTOP s (by decide)]
      · simpa [step, hc] using hinv
  | BYPASS =>
      by_cases hc : s.mode = Mode.INITIALIZED ∨ s.mode = Mode.ESTOP ∨ s.mode = Mode.IDLE ∨
          s.mode = Mode.IN_TRAINING
      · simp [step, hc, fire_mode, fire_relay opts Mode.BYPASSED s (by decide)]
      · simpa [step, hc] using hinv
  | UNLOCK =>
      by_cases hc : s.mode = Mode.IDLE ∨ s.mode = Mode.IN_USE
      · by_cases hn : is_normal_hours opts env.now = true
        · simp [step, hc, hn, fire_mode, fire_relay opts Mode.UNLOCKED s (by decide)]
        · simpa [step, hc, hn] using hinv
      · simpa [step, hc] using hinv
  | LOGIN =>
      by_cases h1 : s.mode = Mode.IDLE
      · by_cases h2 : (is_authorized opts env s).2 = true
        · simp [step, h1, h2, fire_mode,
            fire_relay opts Mode.IN_USE (is_authorized opts env s).1 (by decide)]
        · have h2f : (do_login opts env false s).2 = false := by
            simpa [is_authorized] using (Bool.not_eq_true _).mp h2
          have hf := do_login_fail opts env s h2f
          have hm := do_login_mode_status opts env false s
          simp only [step, h1, if_true, is_authorized]
          simp [h2f, hf.2.1, hm.1, h1]
      · by_cases h1b : s.mode = Mode.IN_USE
        · by_cases h2 : (should_extend_current_session opts env s).2 = true
          · simp [step, h1, h1b, h2, fire_mode,
              fire_relay opts Mode.IN_USE (should_extend_current_session opts env s).1 (by decide)]
          · have h2f : (should_extend_current_session opts env s).2 = false :=
              (Bool.not_eq_true _).mp h2
            have hs := should_extend_false opts env s h2f
            simp only [step, h1, h1b]
            simp only [h2f, hs]
            simpa [h1b] using hinv
        · simpa [step, h1, h1b] using hinv
  | LOGOUT =>
      by_cases hc : s.mode = Mode.UNLOCKED ∨ s.mode = Mode.IN_USE ∨ s.mode = Mode.IN_TRAINING
      · simp [step, hc, fire_mode, fire_relay opts Mode.IDLE s (by decide)]
      · by_cases hc2 : s.mode = Mode.IDLE ∨ s.mode = Mode.ESTOP ∨ s.mode = Mode.BYPASSED
        · by_cases hw : is_waiting_for_training opts (decide (s.mode = Mode.TERMINATED))
              env.logoutPinReads = true
          · simp [step, hc, hc2, hw, fire_mode, fire_relay opts Mode.IN_TRAINING s (by decide)]
          · simpa [step, hc, hc2, hw] using hinv
        · simpa [step, hc, hc2] using hinv
  | TERMINATE =>
      simp [step, fire_mode, fire_relay opts Mode.TERMINATED s (by decide)]

theorem c1_relay_witness : RelayInv (step opts0 env0 Trigger.ESTOP sIdle) :=
  (c1_relay_invariant opts0 env0 Trigger.ESTOP sIdle).2 (by unfold RelayInv; decide)

/-! ### C8: status file invariant -/

/-- C8: after every completed transition the status file's content is
exactly the new mode's name followed by a single newline (`update_status`
opens the file with `'w'`, truncating, and is installed as the machine's
`after_state_change` hook); one serialized trigger dispatch therefore
preserves Invariant §3.6. -/
theorem c8_status_file (opts : Opts) (env : Env) (t : Trigger) (s : ClientState) :
    (∀ s2 : ClientState, (update_status s2).statusFile = modeName s2.mode ++ "\n") ∧
    (StatusInv s → StatusInv (step opts env t s)) := by
  refine ⟨fun s2 => rfl, fun hinv => ?_⟩
  cases t with
  | IDLE =>
      by_cases hc : s.mode = Mode.INITIALIZED ∨ s.mode = Mode.ESTOP ∨ s.mode = Mode.BYPASSED
      · simpa [step, hc] using fire_status opts Mode.IDLE s
      · simpa [step, hc] using hinv
  | ESTOP =>
      by_cases hc : s.mode = Mode.INITIALIZED ∨ s.mode = Mode.BYPASSED ∨ s.mode = Mode.IDLE ∨
          s.mode = Mode.IN_USE ∨ s.mode = Mode.IN_TRAINING
      · simpa [step, hc] using fire_status opts Mode.ESTOP s
      · simpa [step, hc] using hinv
  | BYPASS =>
      by_cases hc : s.mode = Mode.INITIALIZED ∨ s.mode = Mode.ESTOP ∨ s.mode = Mode.IDLE ∨
          s.mode = Mode.IN_TRAINING
      · simpa [step, hc] using fire_status opts Mode.BYPASSED s
      · simpa [step, hc] using hinv
  | UNLOCK =>
      by_cases hc : s.mode = Mode.IDLE ∨ s.mode = Mode.IN_USE
      · by_cases hn : is_normal_hours opts env.now = true
        · simpa [step, hc, hn] using fire_status opts Mode.UNLOCKED s
        · simpa [step, hc, hn] using hinv
      · simpa [step, hc] using hinv
  | LOGIN =>
      by_cases h1 : s.mode = Mode.IDLE
      · by_cases h2 : (is_authorized opts env s).2 = true
        · simpa [step, h1, h2] using
            fire_status opts Mode.IN_USE (is_authorized opts env s).1
        · have h2f : (do_login opts env false s).2 = false := by
            simpa [is_authorized] using (Bool.not_eq_true _).mp h2
          have hm := do_login_mode_status opts env false s
          unfold StatusInv at hinv ⊢
          simp only [step, h1, if_true, is_authorized]
          simp [h2f, hm.1, hm.2, hinv]
      · by_cases h1b : s.mode = Mode.IN_USE
        · by_cases h2 : (should_extend_current_session opts env s).2 = true
          · simpa [step, h1, h1b, h2] using
              fire_status opts Mode.IN_USE (should_extend_current_session opts env s).1
          · have h2f : (should_extend_current_session opts env s).2 = false :=
              (Bool.not_eq_true _).mp h2
            have hs := should_extend_false opts env s h2f
            unfold StatusInv at hinv ⊢
            simp [step, h1, h1b, h2f, hs, hinv]
        · simpa [step, h1, h1b] using hinv
  | LOGOUT =>
      by_cases hc : s.mode = Mode.UNLOCKED ∨ s.mode = Mode.IN_USE ∨ s.mode = Mode.IN_TRAINING
      · simpa [step, hc] using fire_status opts Mode.IDLE s
      · by_cases hc2 : s.mode = Mode.IDLE ∨ s.mode = Mode.ESTOP ∨ s.mode = Mode.BYPASSED
        · by_cases hw : is_waiting_for_training opts (decide (s.mode = Mode.TERMINATED))
              env.logoutPinReads = true
          · simpa [step, hc, hc2, hw] using fire_status opts Mode.IN_TRAINING s
          · simpa [step, hc, hc2, hw] using hinv
        · simpa [step, hc, hc2] using hinv
  | TERMINATE =>
      simpa [step] using fire_status opts Mode.TERMINATED s

theorem c8_status_witness : StatusInv (step opts0 env0 Trigger.ESTOP sIdle) :=
  (c8_status_file opts0 env0 Trigger.ESTOP sIdle).2 (by unfold StatusInv; decide)

/-! ### C3: session expiry -/

theorem step_logout_from_in_use (opts : Opts) (env : Env) (s : ClientState)
    (h : s.mode = Mode.IN_USE) :
    (step opts env Trigger.LOGOUT s).mode = Mode.IDLE ∧
    (step opts env Trigger.LOGOUT s).relay = false := by
  have hc : s.mode = Mode.UNLOCKED ∨ s.mode = Mode.IN_USE ∨ s.mode = Mode.IN_TRAINING :=
    Or.inr (Or.inl h)
  simp [step, hc, fire, update_status, run_entry]

theorem tick_expired (opts : Opts) (env : Env) (s : ClientState) (u : UserInfo)
    (hm : s.mode = Mode.IN_USE) (ht : s.logout_timer = true) (hu : s.user_info = some u)
    (hz : u.remaining_seconds ≤ 0) :
    logout_timer_tick opts env s = step opts env Trigger.LOGOUT s := by
  simp [logout_timer_tick, hm, hu, ht, hz]

theorem tick_decrement (opts : Opts) (env : Env) (s : ClientState) (u : UserInfo)
    (hm : s.mode = Mode.IN_USE) (ht : s.logout_timer = true) (hu : s.user_info = some u)
    (hr : 0 < u.remaining_seconds) :
    logout_timer_tick opts env s =
      start_logout_timer (show_remaining_time opts
        { s with user_info := some { u with remaining_seconds := u.remaining_seconds - 1 } }) := by
  have hr2 : ¬u.remaining_seconds ≤ 0 := by omega
  simp [logout_timer_tick, hm, hu, ht, hr2]

theorem tick_iterate (opts : Opts) (env : Env) :
    ∀ (k : Nat) (s : ClientState) (u : UserInfo),
      s.mode = Mode.IN_USE → s.logout_timer = true → s.relay = true →
      s.user_info = some u → (k : Int) ≤ u.remaining_seconds →
      ∃ u2 : UserInfo,
        ((logout_timer_tick opts env)^[k] s).mode = Mode.IN_USE ∧
        ((logout_timer_tick opts env)^[k] s).logout_timer = true ∧
        ((logout_timer_tick opts env)^[k] s).relay = true ∧
        ((logout_timer_tick opts env)^[k] s).user_info = some u2 ∧
        u2.remaining_seconds = u.remaining_seconds - k := by
  intro k
  induction k with
  | zero =>
      intro s u hm ht hrel hu hk
      exact ⟨u, hm, ht, hrel, hu, by simp⟩
  | succ n ih =>
      intro s u hm ht hrel hu hk
      have hr : 0 < u.remaining_seconds := by omega
      have hstep := tick_decrement opts env s u hm ht hu hr
      rw [Function.iterate_succ_apply, hstep]
      obtain ⟨u2, h1, h2, h3, h4, h5⟩ :=
        ih (start_logout_timer (show_remaining_time opts
            { s with user_info := some { u with remaining_seconds := u.remaining_seconds - 1 } }))
          { u with remaining_seconds := u.remaining_seconds - 1 }
          (by simp [start_logout_timer, hm]) (by simp [start_logout_timer])
          (by simp [start_logout_timer, hrel]) (by simp [start_logout_timer])
          (by simp; omega)
      exact ⟨u2, h1, h2, h3, h4, by simp at h5; omega⟩

/-- C3 counterexample: from IN_USE with `remaining_seconds = 1`, after
exactly 1 SessionTimer tick the machine has not reached IDLE (the tick
decrements first and only fires `logout` on the tick after the count
reaches zero). -/
theorem c3_counterexample :
    ¬ ((((logout_timer_tick opts0 env0)^[1]) (initInUse 1)).mode = Mode.IDLE ∧
       (((logout_timer_tick opts0 env0)^[1]) (initInUse 1)).relay = false) := by
  decide

/-- C3 (amended): starting from IN_USE with `remaining_seconds = N`
(`N > 0`) and no other events, after exactly `N + 1` SessionTimer ticks the
machine reaches IDLE with the relay commanded low; after `N` ticks it is
still IN_USE. -/
theorem c3_session_expiry (opts : Opts) (env : Env) (N : Nat) (s : ClientState) (u : UserInfo)
    (hm : s.mode = Mode.IN_USE) (ht : s.logout_timer = true) (hrel : s.relay = true)
    (hu : s.user_info = some u) (hN : u.remaining_seconds = (N : Int)) (hpos : 0 < N) :
    ((logout_timer_tick opts env)^[N] s).mode = Mode.IN_USE ∧
    ((logout_timer_tick opts env)^[N + 1] s).mode = Mode.IDLE ∧
    ((logout_timer_tick opts env)^[N + 1] s).relay = false := by
  obtain ⟨u2, h1, h2, h3, h4, h5⟩ := tick_iterate opts env N s u hm ht hrel hu (by omega)
  refine ⟨h1, ?_⟩
  have hz : u2.remaining_seconds = 0 := by omega
  have e : (logout_timer_tick opts env)^[N + 1] s =
      step opts env Trigger.LOGOUT ((logout_timer_tick opts env)^[N] s) := by
    rw [Function.iterate_succ_apply']
    exact tick_expired opts env _ u2 h1 h2 h4 (by omega)
  rw [e]
  exact step_logout_from_in_use opts env _ h1

theorem c3_expiry_witness :
    (((logout_timer_tick opts0 env0)^[2]) (initInUse 1)).mode = Mode.IDLE ∧
    (((logout_timer_tick opts0 env0)^[2]) (initInUse 1)).relay = false :=
  (c3_session_expiry opts0 env0 1 (initInUse 1) { alice with remaining_seconds := 1 }
    rfl rfl rfl rfl (by decide) (by decide)).2

/-! ### C4: unauthorized login -/

/-- C4 counterexample: an unauthorized override login attempt (badge `X9`
scanned in IN_USE while Bob is logged in, `ALLOW_USER_OVERRIDE` enabled):
the guard returns true, not false, and the UserContext is not empty
afterwards (the exception preempts the context assignment, so the previous
user's context is retained). -/
theorem c4_counterexample :
    (should_extend_current_session opts0 envB sBob).2 = true ∧
    ¬ (should_extend_current_session opts0 envB sBob).1.user_info = none := by
  decide

/-- C4 (amended): when the server answers a login with unauthorized, a
normal (non-override) attempt from IDLE makes the guard return false,
empties the UserContext and leaves Mode = IDLE; an override attempt leaves
the previously stored UserContext unchanged (so the login call reports a
context is still present) and leaves Mode = IN_USE (the mode the attempt
ran in). -/
theorem c4_unauthorized_login (opts : Opts) (env : Env) (s : ClientState)
    (h : env.loginResult = LoginResult.unauthorized) :
    (s.mode = Mode.IDLE →
      (do_login opts env false s).2 = false ∧
      (do_login opts env false s).1.user_info = none ∧
      (step opts env Trigger.LOGIN s).mode = Mode.IDLE ∧
      (step opts env Trigger.LOGIN s).user_info = none) ∧
    ((do_login opts env true s).1.user_info = s.user_info ∧
     (do_login opts env true s).1.mode = s.mode ∧
     (do_login opts env true s).2 = s.user_info.isSome) := by
  constructor
  · intro h1
    have hfail : (do_login opts env false s).2 = false := by
      simp [do_login, h]
    have hf := do_login_fail opts env s hfail
    have hmo := do_login_mode_status opts env false s
    refine ⟨hfail, hf.1, ?_, ?_⟩
    · simp [step, h1, is_authorized, hfail, hmo.1]
    · simp [step, h1, is_authorized, hfail, hf.1]
  · simp [do_login, h, write_lcd, write_lcd1, show_red_led]

theorem c4_unauthorized_witness :
    (do_login opts0 env0 false sIdle).2 = false ∧
    (do_login opts0 env0 false sIdle).1.user_info = none :=
  ⟨((c4_unauthorized_login opts0 env0 sIdle rfl).1 rfl).1,
   ((c4_unauthorized_login opts0 env0 sIdle rfl).1 rfl).2.1⟩

/-! ### C5: same-badge session extension -/

/-- C5: a badge scan in IN_USE whose code equals the current UserContext's
badge: when `remaining_extensions` is non-zero, `remaining_seconds` grows by
exactly `session_seconds` and `remaining_extensions` drops by 1 (unchanged
when unbounded); when it is zero, `remaining_seconds` is unchanged; in all
cases the guard returns true, the mode stays IN_USE and the session timer is
restarted. -/
theorem c5_same_badge_extension (opts : Opts) (env : Env) (s : ClientState) (u : UserInfo)
    (h1 : s.mode = Mode.IN_USE) (h2 : s.user_info = some u)
    (h3 : u.badge_code ≠ "") (h4 : env.badge_code = some u.badge_code) :
    (should_extend_current_session opts env s).2 = true ∧
    (step opts env Trigger.LOGIN s).mode = Mode.IN_USE ∧
    (step opts env Trigger.LOGIN s).logout_timer = true ∧
    (step opts env Trigger.LOGIN s).user_info =
      some { u with
        remaining_seconds :=
          match u.remaining_extensions with
          | some 0 => u.remaining_seconds
          | _ => u.remaining_seconds + u.session_seconds,
        remaining_extensions :=
          match u.remaining_extensions with
          | none => none
          | some 0 => some 0
          | some (k + 1) => some k } := by
  have hcur : is_current_badge_code s.user_info env.badge_code = true := by
    simp [is_current_badge_code, h2, h3, h4]
  have hguard : (should_extend_current_session opts env s).2 = true := by
    simp [should_extend_current_session, hcur]
  have hstate : (should_extend_current_session opts env s).1 = extend_session opts s := by
    simp [should_extend_current_session, hcur]
  have hne : ¬s.mode = Mode.IDLE := by simp [h1]
  have hstep : step opts env Trigger.LOGIN s =
      fire opts Mode.IN_USE (should_extend_current_session opts env s).1 := by
    simp [step, hne, h1, hguard]
  have hfi := fire_in_use_fields opts (should_extend_current_session opts env s).1
  have hext := extend_session_result opts s u h2
  refine ⟨hguard, ?_, ?_, ?_⟩
  · rw [hstep]; exact hfi.2.2.1
  · rw [hstep]; exact hfi.2.1
  · rw [hstep, hfi.1, hstate, hext.2]
    obtain ⟨bc, uid, un, ss, rs, re⟩ := u
    rcases re with _ | (_ | k) <;> simp [extended_user, ext_truthy, dec_ext]

theorem c5_extension_witness :
    (should_extend_current_session opts0 envA sAlice).2 = true ∧
    (step opts0 envA Trigger.LOGIN sAlice).user_info = some aliceAfterExt := by
  have h := c5_same_badge_extension opts0 envA sAlice alice rfl rfl (by decide) rfl
  exact ⟨h.1, by simpa [alice, aliceAfterExt] using h.2.2.2⟩

/-! ### C10: failed override retains the previous user -/

/-- C10: when an override login (different badge in IN_USE with
`ALLOW_USER_OVERRIDE`) fails with any server error, the guard
`should_extend_current_session` still returns true, the previous user's
context is retained unchanged, and the IN_USE re-entry restarts the session
timer (which continues from the previous user's `remaining_seconds`). -/
theorem c10_override_failure (opts : Opts) (env : Env) (s : ClientState) (u : UserInfo)
    (b : String) (h1 : s.mode = Mode.IN_USE) (h2 : s.user_info = some u)
    (h3 : env.badge_code = some b) (h4 : ¬b = u.badge_code)
    (h5 : opts.allow_user_override = true)
    (h6 : env.loginResult = LoginResult.unauthorized ∨ env.loginResult = LoginResult.err) :
    (should_extend_current_session opts env s).2 = true ∧
    (step opts env Trigger.LOGIN s).user_info = some u ∧
    (step opts env Trigger.LOGIN s).mode = Mode.IN_USE ∧
    (step opts env Trigger.LOGIN s).logout_timer = true := by
  have hcur : is_current_badge_code s.user_info env.badge_code = false := by
    simp [is_current_badge_code, h2, h3, h4]
  have hguard : (should_extend_current_session opts env s).2 = true := by
    simp [should_extend_current_session, hcur, h5]
  have hstate : (should_extend_current_session opts env s).1 =
      (do_login opts env true (cancel_logout_timer s)).1 := by
    simp [should_extend_current_session, hcur, h5]
  have huser : (do_login opts env true (cancel_logout_timer s)).1.user_info = s.user_info := by
    rcases h6 with h6 | h6 <;>
      simp [do_login, h6, write_lcd, write_lcd1, show_red_led, cancel_logout_timer]
  have hne : ¬s.mode = Mode.IDLE := by simp [h1]
  have hstep : step opts env Trigger.LOGIN s =
      fire opts Mode.IN_USE (should_extend_current_session opts env s).1 := by
    simp [step, hne, h1, hguard]
  have hfi := fire_in_use_fields opts (should_extend_current_session opts env s).1
  refine ⟨hguard, ?_, ?_, ?_⟩
  · rw [hstep, hfi.1, hstate, huser, h2]
  · rw [hstep]; exact hfi.2.2.1
  · rw [hstep]; exact hfi.2.1

theorem c10_override_witness :
    (should_extend_current_session opts0 envB sBob).2 = true ∧
    (step opts0 envB Trigger.LOGIN sBob).user_info = some bob :=
  ⟨(c10_override_failure opts0 envB sBob bob "X9" rfl rfl rfl (by decide) rfl (Or.inl rfl)).1,
   (c10_override_failure opts0 envB sBob bob "X9" rfl rfl rfl (by decide) rfl (Or.inl rfl)).2.1⟩

/-! ### C2: safe power-down -/

theorem wait_polls_spec (cs : Nat → Bool) (lim : Option Nat) :
    ∀ (fuel k n : Nat), wait_polls cs lim k fuel = some n →
      k ≤ n ∧ (∀ j, k ≤ j → j < n → (withinLimit lim j && cs j) = true) ∧
      (withinLimit lim n && cs n) = false := by
  intro fuel
  induction fuel with
  | zero => intro k n h; simp [wait_polls] at h
  | succ f ih =>
      intro k n h
      unfold wait_polls at h
      by_cases hc : (withinLimit lim k && cs k) = true
      · rw [if_pos hc] at h
        obtain ⟨hk, hmid, hend⟩ := ih (k + 1) n h
        refine ⟨by omega, fun j hj1 hj2 => ?_, hend⟩
        rcases Nat.eq_or_lt_of_le hj1 with rfl | hlt
        · exact hc
        · exact hmid j hlt hj2
      · rw [if_neg hc] at h
        have hkn := Option.some.inj h
        subst hkn
        exact ⟨le_refl _, fun j hj1 hj2 => absurd hj2 (by omega),
          (Bool.not_eq_true _).mp hc⟩

theorem wait_polls_total (cs : Nat → Bool) (t : Nat) :
    ∀ (fuel k : Nat), k ≤ t → t < k + fuel →
      ∃ n, wait_polls cs (some t) k fuel = some n ∧ n ≤ t := by
  intro fuel
  induction fuel with
  | zero => intro k hk hlt; omega
  | succ f ih =>
      intro k hk hlt
      unfold wait_polls
      by_cases hc : (withinLimit (some t) k && cs k) = true
      · rw [if_pos hc]
        have hklt : k < t := by
          simpa [withinLimit] using ((Bool.and_eq_true _ _).mp hc).1
        exact ih (k + 1) (by omega) (by omega)
      · rw [if_neg hc]
        exact ⟨k, rfl, hk⟩

/-- C2: the safe power-down sequence `__disable_power`: (i) if the relay pin
already reads low it performs no device writes and returns immediately;
(ii) every terminating run commands the relay low on return; (iii) when the
polling loop finishes after `n` polls, the loop condition (elapsed time
below `MAX_POWER_DOWN_TIMEOUT` — unbounded when unset — and current still
drawn) held before each executed poll and fails at index `n`, the effect
trace is exactly `n` iterations of (red LED, waiting screen, 500 ms sleep)
followed by the coast-time sleep only when current draw was ever observed
(`n ≠ 0`) and the final relay-low write — in particular with no current draw
observed there is no coasting sleep; (iv) with `MAX_POWER_DOWN_TIMEOUT = t`
set, the polling terminates within `2·t` polls (500 ms each). -/
theorem c2_disable_power (opts : Opts) (cs : Nat → Bool) (fuel : Nat) :
    (disable_power opts false cs fuel = some (false, [])) ∧
    (∀ p, disable_power opts true cs fuel = some p → p.1 = false) ∧
    (∀ n, wait_polls cs (limitHalf opts) 0 fuel = some n →
      disable_power opts true cs fuel =
        some (false, pollEffects opts n ++ (if n ≠ 0 then coastEffects opts else []) ++
          finalEffects opts) ∧
      (∀ j, j < n → (withinLimit (limitHalf opts) j && cs j) = true) ∧
      ((withinLimit (limitHalf opts) n && cs n) = false) ∧
      (n = 0 → disable_power opts true cs fuel = some (false, finalEffects opts))) ∧
    (∀ t, opts.max_power_down_timeout = some t → 2 * t < fuel →
      ∃ n, wait_polls cs (limitHalf opts) 0 fuel = some n ∧ n ≤ 2 * t) := by
  refine ⟨by simp [disable_power], ?_, ?_, ?_⟩
  · intro p hp
    unfold disable_power at hp
    rw [if_neg (by simp)] at hp
    cases hw : wait_polls cs (limitHalf opts) 0 fuel with
    | none => rw [hw] at hp; cases hp
    | some n => rw [hw] at hp; cases hp; rfl
  · intro n hw
    obtain ⟨-, hmid, hend⟩ := wait_polls_spec cs (limitHalf opts) fuel 0 n hw
    have heq : disable_power opts true cs fuel =
        some (false, pollEffects opts n ++ (if n ≠ 0 then coastEffects opts else []) ++
          finalEffects opts) := by
      unfold disable_power
      rw [if_neg (by simp), hw]
    refine ⟨heq, fun j hj => hmid j (Nat.zero_le j) hj, hend, fun hn0 => ?_⟩
    subst hn0
    simpa [pollEffects] using heq
  · intro t ht hfu
    have hl : limitHalf opts = some (2 * t) := by simp [limitHalf, ht]
    rw [hl]
    exact wait_polls_total cs (2 * t) fuel 0 (Nat.zero_le _) (by omega)

theorem c2_power_down_witness :
    disable_power opts0 true (fun _ => false) 20 = some (false, finalEffects opts0) ∧
    disable_power opts0 false (fun _ => false) 20 = some (false, []) :=
  ⟨((c2_disable_power opts0 (fun _ => false) 20).2.2.1 0 (by decide)).2.2.2 rfl,
   (c2_disable_power opts0 (fun _ => false) 20).1⟩
